import Mathlib

/-!
Verification development for the autoTriage issue-triage pipeline.

The definitions below are a shallow embedding of the Python sources under
`autoTriage/` (mainly `services/llm_service.py`, `services/intake_service.py`
and `services/github_service.py`).  Pure string/keyword logic is translated
directly; the LLM collaborator is modelled as an abstract outcome (unavailable,
non-JSON text, or a parsed JSON value) and Python exceptions are modelled with
`Except`.  Each definition carries a comment naming the source function it
embeds.
-/

set_option linter.unusedVariables false
set_option linter.unnecessarySeqFocus false

/-- Python exception kinds that the embedded code can raise. -/
inductive PyErr where
  | attributeError
  | nameError
  | valueError
  | indexError
  | typeError
deriving DecidableEq

/-- A Python/JSON value, as produced by `json.loads` and stored in result
dicts.  `float` is modelled with rationals (all literals in the source are
exact dyadics). -/
inductive PyVal where
  | none
  | bool (b : Bool)
  | int (n : Int)
  | float (q : ℚ)
  | str (s : String)
  | list (xs : List PyVal)
  | dict (fields : List (String × PyVal))

/-- Outcome of `LlmService._call_llm` as seen by its callers: the call failed
or returned falsy text (`unavailable`), returned text that `json.loads`
rejects (`malformed`), or returned text parsing to a JSON value. -/
inductive LlmOutcome where
  | unavailable
  | malformed
  | json (v : PyVal)

/-- Whether the char list `p` is an initial segment of `s` (models the inner
step of Python substring search). -/
def listStartsWith : List Char → List Char → Bool
  | [], _ => true
  | _ :: _, [] => false
  | a :: as, b :: bs => a == b && listStartsWith as bs

/-- Whether `needle` occurs as a contiguous segment of the haystack; models
the Python `needle in haystack` substring test. -/
def listContainsSub (needle : List Char) : List Char → Bool
  | [] => listStartsWith needle []
  | b :: bs => listStartsWith needle (b :: bs) || listContainsSub needle bs

/-- Python `needle in haystack` on strings. -/
def substrOf (needle haystack : String) : Bool :=
  listContainsSub needle.data haystack.data

/-- Python `str.lower()` (the source only lowers ASCII label/keyword text). -/
def strLower (s : String) : String :=
  ⟨s.data.map Char.toLower⟩

/-- Python `s.startswith(p)`. -/
def strStartsWith (p s : String) : Bool :=
  listStartsWith p.data s.data

/-- Python `s[n:]` (per-character drop; the dropped prefixes in the source are
ASCII). -/
def strDropChars (s : String) (n : Nat) : String :=
  ⟨s.data.drop n⟩

/-- `dict.get(k, d)` on an association list representing a Python dict. -/
def lookupD (fields : List (String × PyVal)) (k : String) (d : PyVal) : PyVal :=
  match fields.lookup k with
  | some v => v
  | Option.none => d

/-- `models/team_config.py PriorityRules`: ordered keyword tiers plus the
configured default priority. -/
structure PriorityRules where
  p0_keywords : List String
  p1_keywords : List String
  p2_keywords : List String
  p3_keywords : List String
  p4_keywords : List String
  default_priority : String

/-- `models/team_config.py CopilotFixableConfig`. -/
structure CopilotFixableConfig where
  enabled : Bool
  criteria : List String
  max_issues_per_day : Nat

/-- `llm_service.py _determine_type`: first-match keyword buckets over the
already-lowered combined title+body text, defaulting to "bug". -/
def determineType (content : String) : String :=
  if ["bug", "error", "broken", "crash", "fail"].any (fun kw => substrOf kw content) then "bug"
  else if ["feature", "enhancement", "request", "add"].any (fun kw => substrOf kw content) then "feature"
  else if ["doc", "typo", "readme", "documentation"].any (fun kw => substrOf kw content) then "documentation"
  else if ["question", "how to", "help", "?"].any (fun kw => substrOf kw content) then "question"
  else "bug"

/-- One tier of `llm_service.py _determine_priority`: some keyword of the tier
occurs (lowered) in the content. -/
def kwHit (keywords : List String) (content : String) : Bool :=
  keywords.any (fun kw => substrOf (strLower kw) content)

/-- `llm_service.py _determine_priority`: scans the p1..p4 keyword tiers in
order and returns the literal "P3" when none hits.  Note that the source never
consults `rules.p0_keywords` nor `rules.default_priority`. -/
def determinePriority (content : String) (rules : PriorityRules) : String :=
  if kwHit rules.p1_keywords content then "P1"
  else if kwHit rules.p2_keywords content then "P2"
  else if kwHit rules.p3_keywords content then "P3"
  else if kwHit rules.p4_keywords content then "P4"
  else "P3"

/-- `llm_service.py classify_issue`.  On a parsed JSON object the five fields
are read with `dict.get` defaults; on a parsed non-object JSON value the
`parsed.get` attribute access raises `AttributeError` (only
`json.JSONDecodeError` is caught in the source); otherwise the keyword
fallback runs. -/
def classify_issue (title body : String) (rules : PriorityRules)
    (llm : LlmOutcome) : Except PyErr PyVal :=
  let combined := strLower (title ++ " " ++ body)
  match llm with
  | .json (.dict fs) =>
      .ok (.dict [("type", lookupD fs "type" (.str "bug")),
                  ("priority", lookupD fs "priority" (.str "P3")),
                  ("type_rationale", lookupD fs "type_rationale" (.str "")),
                  ("priority_rationale", lookupD fs "priority_rationale" (.str "")),
                  ("confidence", lookupD fs "confidence" (.float (4/5)))])
  | .json _ => .error .attributeError
  | _ =>
      let issue_type := determineType combined
      let priority := determinePriority combined rules
      .ok (.dict [("type", .str issue_type),
                  ("priority", .str priority),
                  ("type_rationale", .str ("Classified as \x27" ++ issue_type ++ "\x27 based on keyword matching")),
                  ("priority_rationale", .str ("Assigned " ++ priority ++ " based on keyword matching")),
                  ("confidence", .float (1/2))])

/-- The fixed result `llm_service.py is_copilot_fixable` returns when the
feature flag is disabled. -/
def disabled_copilot_result : PyVal :=
  .dict [("is_copilot_fixable", .bool false),
         ("confidence", .float 0),
         ("reasoning", .str "Copilot coding agent is disabled in configuration"),
         ("suggested_approach", .str "")]

/-- `llm_service.py is_copilot_fixable`.  Disabled flag short-circuits before
any LLM interaction; a parsed JSON object is read with `dict.get` defaults; a
parsed non-object raises `AttributeError`; otherwise criteria-keyword fallback
over the lowered title+body. -/
def is_copilot_fixable (title body : String) (config : CopilotFixableConfig)
    (issue_type priority : String) (llm : LlmOutcome) : Except PyErr PyVal :=
  if !config.enabled then .ok disabled_copilot_result
  else
    match llm with
    | .json (.dict fs) =>
        .ok (.dict [("is_copilot_fixable", lookupD fs "is_copilot_fixable" (.bool false)),
                    ("confidence", lookupD fs "confidence" (.float (1/2))),
                    ("reasoning", lookupD fs "reasoning" (.str "LLM assessment completed")),
                    ("suggested_approach", lookupD fs "suggested_approach" (.str ""))])
    | .json _ => .error .attributeError
    | _ =>
        let combined := strLower (title ++ " " ++ body)
        match config.criteria.find? (fun c => substrOf (strLower c) combined) with
        | some c =>
            .ok (.dict [("is_copilot_fixable", .bool true),
                        ("confidence", .float (1/2)),
                        ("reasoning", .str ("Matched keyword criterion: \x27" ++ c ++ "\x27")),
                        ("suggested_approach", .str "")])
        | Option.none =>
            .ok (.dict [("is_copilot_fixable", .bool false),
                        ("confidence", .float (1/2)),
                        ("reasoning", .str "No matching criteria found via keyword matching (LLM unavailable)"),
                        ("suggested_approach", .str "")])

/-- Whether an embedded call completed without a Python exception. -/
def isOkE {α : Type} (e : Except PyErr α) : Bool :=
  match e with
  | .ok _ => true
  | .error _ => false

/-- One configured team member (`team_members` entries carry name, login and
role; expertise/contribution fields never influence the embedded logic). -/
structure TeamMember where
  name : String
  login : String
  role : String
deriving DecidableEq

/-- The `assignee`/`rationale`/`confidence` dict returned by the assignee
selection functions in `llm_service.py`. -/
structure AssigneeDecision where
  assignee : Option String
  rationale : String
  confidence : ℚ
deriving DecidableEq

/-- The `role_keywords` table of `llm_service.py _fallback_assignee_selection`,
including its `.get(..., ["developer"])` default. -/
def role_keywords (t : String) : List String :=
  if t = "bug" then ["backend", "full stack", "developer"]
  else if t = "feature" then ["full stack", "developer", "backend", "frontend"]
  else if t = "documentation" then ["developer", "writer"]
  else if t = "question" then ["lead", "senior"]
  else ["developer"]

/-- The keyword-major double loop of `_fallback_assignee_selection`: first
keyword that any member's lowered role contains wins, members scanned in
roster order. -/
def find_by_role (team : List TeamMember) : List String → Option TeamMember
  | [] => Option.none
  | kw :: rest =>
    match team.find? (fun m => substrOf kw (strLower m.role)) with
    | some m => some m
    | Option.none => find_by_role team rest

/-- `llm_service.py _fallback_assignee_selection`.  The lead rule fires only
for P1/P2; `team_members[0]` on an empty roster raises `IndexError`. -/
def fallback_assignee_selection (issue_type priority : String)
    (team : List TeamMember) : Except PyErr AssigneeDecision :=
  match (if priority == "P1" || priority == "P2"
         then team.find? (fun m => substrOf "lead" (strLower m.role))
         else Option.none) with
  | some m =>
      .ok ⟨some m.login, "High priority (" ++ priority ++ ") issue assigned to tech lead", 3/5⟩
  | Option.none =>
    match find_by_role team (role_keywords (strLower issue_type)) with
    | some m =>
        .ok ⟨some m.login, "Assigned to " ++ m.role ++ " based on issue type (" ++ issue_type ++ ")", 1/2⟩
    | Option.none =>
      match team with
      | [] => .error .indexError
      | m :: _ =>
          .ok ⟨some m.login, "Default assignment - no specific expertise match found", 3/10⟩

/-- Renders a stored non-string dict value the way it would eventually be
interpolated into text (`str()` in Python). -/
def pyvalAsString : PyVal → String
  | .str s => s
  | .bool true => "True"
  | .bool false => "False"
  | .int n => toString n
  | .none => "None"
  | _ => "object"

/-- The `rationale` field read off a parsed assignee response with its
`dict.get` default. -/
def rationaleOf (fs : List (String × PyVal)) : String :=
  pyvalAsString (lookupD fs "rationale" (.str "Selected by AI based on expertise match"))

/-- The `confidence` field read off a parsed assignee response with its
`dict.get` default (non-numeric values are collapsed to 0; no embedded claim
depends on them). -/
def confidenceOf (fs : List (String × PyVal)) : ℚ :=
  match lookupD fs "confidence" (.float (4/5)) with
  | .float q => q
  | .int n => (n : ℚ)
  | _ => 0

/-- `llm_service.py select_assignee`.  Empty roster short-circuits; a parsed
JSON object is matched back to the roster by login then by display name
(case-insensitively); an unmatched or falsy response falls back to
`_fallback_assignee_selection`; a non-object JSON value, or a non-string
`assignee` field (`.lower()` on it), raises `AttributeError`. -/
def select_assignee (title body issue_type priority : String)
    (team : List TeamMember) (llm : LlmOutcome) : Except PyErr AssigneeDecision :=
  if team.isEmpty then
    .ok ⟨Option.none, "No team members available for assignment", 0⟩
  else
    match llm with
    | .json (.dict fs) =>
      match lookupD fs "assignee" (.str "") with
      | .str a =>
        match team.find? (fun m => strLower m.login == strLower a) with
        | some m => .ok ⟨some m.login, rationaleOf fs, confidenceOf fs⟩
        | Option.none =>
          match team.find? (fun m => strLower m.name == strLower a) with
          | some m => .ok ⟨some m.login, rationaleOf fs, confidenceOf fs⟩
          | Option.none => fallback_assignee_selection issue_type priority team
      | _ => .error .attributeError
    | .json _ => .error .attributeError
    | _ => fallback_assignee_selection issue_type priority team

/-- Python truthiness of an optional string (`None` and `""` are falsy). -/
def optStrTruthy : Option String → Bool
  | some s => !(s == "")
  | Option.none => false

/-- `intake_service.py _select_human_assignee`: empty roster returns
`(None, "No team members configured")`; otherwise the LLM selection result is
used when its assignee is truthy, else the first team member is assigned
(with a P0/P1-specific rationale when applicable). -/
def select_human_assignee (team : List TeamMember)
    (title body issue_type priority : String) (llm : LlmOutcome) :
    Except PyErr (Option String × String) :=
  if team.isEmpty then .ok (Option.none, "No team members configured")
  else
    match select_assignee title body issue_type priority team llm with
    | .error e => .error e
    | .ok result =>
      if optStrTruthy result.assignee then .ok (result.assignee, result.rationale)
      else
        let first_login : Option String := team.head?.map (fun m => m.login)
        if (priority == "P0" || priority == "P1") && optStrTruthy first_login then
          .ok (first_login, "High priority (" ++ priority ++ ") issue assigned to primary engineer")
        else
          .ok (first_login, "Default assignment")

/-- `models/issue_classification.py TriageRationale`. -/
structure TriageRationale where
  type_rationale : String
  priority_rationale : String
  copilot_rationale : String
  assignment_rationale : String
  labels_rationale : String
deriving DecidableEq

/-- `models/issue_classification.py IssueClassification` (confidence is kept
rational; the source stores a float). -/
structure IssueClassification where
  issue_url : String
  issue_number : Nat
  issue_type : String
  priority : String
  suggested_labels : List String
  suggested_assignee : Option String
  is_copilot_fixable : Bool
  reason : String
  confidence : ℚ
  rationale : TriageRationale
  fix_suggestions : List String
deriving DecidableEq

/-- The per-label result of `github_service.py validate_labels`: proposed
labels split by exact membership in the repository label-name set.  The
difflib-based `suggestions` map does not influence any control flow and is
not modelled. -/
structure LabelValidation where
  valid : List String
  invalid : List String
deriving DecidableEq

/-- `github_service.py validate_labels` (exact string membership, in proposal
order). -/
def validate_labels (repo_label_names : List String) (proposed : List String) :
    LabelValidation :=
  { valid := proposed.filter (fun l => repo_label_names.contains l),
    invalid := proposed.filter (fun l => !(repo_label_names.contains l)) }

/-- `intake_service.py _validate_classification` result dict. -/
structure ValidationResult where
  valid : Bool
  warnings : List String
  errors : List String
deriving DecidableEq

/-- The invalid-labels warning text (the source interpolates the Python list
repr of the invalid labels and the difflib suggestions; only the invalid
labels are rendered here). -/
def invalid_labels_warning (invalid : List String) : String :=
  "Invalid labels: " ++ String.intercalate ", " invalid ++ ". Suggestions: see repository labels."

/-- The low-confidence warning text (the numeric interpolation of the source
is elided). -/
def low_confidence_warning : String :=
  "Low confidence. Manual review recommended."

/-- The `@`-stripping step of `_validate_classification` (step c). -/
def strip_at (c : IssueClassification) : IssueClassification :=
  match c.suggested_assignee with
  | some a =>
      if strStartsWith "@" a then { c with suggested_assignee := some (strDropChars a 1) }
      else c
  | Option.none => c

/-- Step (a) of `_validate_classification`: when some proposed label does not
exist in the repository, the classification keeps only the valid ones. -/
def validate_step_labels (repo_label_names : List String)
    (c : IssueClassification) : IssueClassification :=
  if (validate_labels repo_label_names c.suggested_labels).invalid.isEmpty then c
  else { c with suggested_labels := (validate_labels repo_label_names c.suggested_labels).valid }

/-- The final validity flag of `_validate_classification`: cleared by invalid
labels (step a) and by confidence below 0.7 (step b). -/
def validate_valid (repo_label_names : List String)
    (c : IssueClassification) : Bool :=
  if c.confidence < 7/10 then false
  else (validate_labels repo_label_names c.suggested_labels).invalid.isEmpty

/-- The accumulated warning list of `_validate_classification`, in the order
the source appends them. -/
def validate_warnings (repo_label_names : List String)
    (c : IssueClassification) : List String :=
  (if (validate_labels repo_label_names c.suggested_labels).invalid.isEmpty
   then ([] : List String)
   else [invalid_labels_warning (validate_labels repo_label_names c.suggested_labels).invalid])
  ++ (if c.confidence < 7/10 then [low_confidence_warning] else [])

/-- `intake_service.py _validate_classification`: (a) drop labels that do not
exist verbatim in the repository, recording a warning and clearing validity;
(b) confidence below 0.7 clears validity with a warning; (c) strip a leading
`@` from the assignee.  Returns the (possibly shrunk) classification and the
validation result. -/
def validate_classification (repo_label_names : List String)
    (c : IssueClassification) : IssueClassification × ValidationResult :=
  (strip_at (validate_step_labels repo_label_names c),
   { valid := validate_valid repo_label_names c,
     warnings := validate_warnings repo_label_names c,
     errors := [] })

/-- A planned GitHub mutation (`_generate_tool_calls` entries). -/
inductive ToolCall where
  | applyLabels (owner repo : String) (issue_number : Nat) (labels : List String) (rationale : String)
  | assignIssue (owner repo : String) (issue_number : Nat) (assignee : String) (rationale : String)
  | addComment (owner repo : String) (issue_number : Nat) (comment : String) (rationale : String)
deriving DecidableEq

/-- Whether a planned tool call is the assignment call. -/
def ToolCall.isAssign : ToolCall → Bool
  | .assignIssue _ _ _ _ _ => true
  | _ => false

/-- The triage-comment body built by `_generate_tool_calls` (markdown
scaffolding around the reasoning text; decorative emoji elided). -/
def triage_comment_text (reasoning_text : String) : String :=
  "## Team Assistant Triage\n\nThis issue has been automatically analyzed and triaged.\n\n### AI Decision Reasoning\n\n"
    ++ reasoning_text
    ++ "\n\n*Labels and assignee have been applied based on this analysis.*\n"

/-- `intake_service.py _generate_tool_calls`: a label-apply call when there is
at least one label (plus the unconditional `copilot-fixable` marker when the
assessment was positive), an assignment call when the assignee is truthy
(leading `@` stripped), and always one summary comment call. -/
def generate_tool_calls (owner repo : String) (c : IssueClassification) :
    List ToolCall :=
  let labels_to_apply :=
    c.suggested_labels ++ (if c.is_copilot_fixable then ["copilot-fixable"] else [])
  let tc1 : List ToolCall :=
    if labels_to_apply.isEmpty then []
    else [.applyLabels owner repo c.issue_number labels_to_apply
            ("Apply labels based on classification: " ++ c.reason)]
  let tc2 : List ToolCall :=
    match c.suggested_assignee with
    | some a =>
      if a == "" then []
      else
        let a2 := if strStartsWith "@" a then strDropChars a 1 else a
        [.assignIssue owner repo c.issue_number a2
          (if c.is_copilot_fixable then "Assign to Copilot as issue is determined to be Copilot-fixable"
           else "Assign to human engineer for review and resolution")]
    | Option.none => []
  let parts : List String :=
    (if !(c.rationale.type_rationale == "") then ["**Type:** " ++ c.rationale.type_rationale] else [])
    ++ (if !(c.rationale.priority_rationale == "") then ["**Priority:** " ++ c.rationale.priority_rationale] else [])
    ++ (if !(c.rationale.copilot_rationale == "") then ["**Copilot Assessment:** " ++ c.rationale.copilot_rationale] else [])
    ++ (if !(c.rationale.assignment_rationale == "") then ["**Assignment:** " ++ c.rationale.assignment_rationale] else [])
  let reasoning_text := if parts.isEmpty then c.reason else String.intercalate "\n" parts
  tc1 ++ tc2
    ++ [.addComment owner repo c.issue_number (triage_comment_text reasoning_text)
          "Add triage comment explaining AI decision-making process and reasoning"]

/-- The priority pattern set used by `github_service.py` (`set_priority_label`
and `apply_triage_result`): substring patterns marking a label as a
priority/triage label. -/
def priority_patterns : List String := ["p0", "p1", "p2", "p3", "p4", "priority"]

/-- Whether a label name matches the priority pattern set (substring match
over the lowered name, as in the source). -/
def isPriorityLabel (l : String) : Bool :=
  priority_patterns.any (fun pat => substrOf pat (strLower l))

/-- `issue.add_to_labels(*labels)`: GitHub issue labels form a set, so adding
an already-present name is a no-op; new names are appended in order. -/
def add_to_labels (issue : List String) (new : List String) : List String :=
  new.foldl (fun acc l => if acc.contains l then acc else acc ++ [l]) issue

/-- `github_service.py set_priority_label` with `remove_existing=True`: remove
every label matching the priority pattern set, then add the new label. -/
def set_priority_label (issue : List String) (priority : String) : List String :=
  add_to_labels (issue.filter (fun l => !(isPriorityLabel l))) [priority]

/-- The priority-label block of `github_service.py apply_triage_result`:
with replacement each priority label goes through `set_priority_label`,
otherwise they are added like ordinary labels. -/
def applyPriorityLabels (issue : List String) (priority_labels : List String)
    (remove_existing_priority : Bool) : List String :=
  if !priority_labels.isEmpty && remove_existing_priority then
    priority_labels.foldl set_priority_label issue
  else if !priority_labels.isEmpty then add_to_labels issue priority_labels
  else issue

/-- The other-labels block of `apply_triage_result`. -/
def applyOtherLabels (issue other_labels : List String) : List String :=
  if other_labels.isEmpty then issue else add_to_labels issue other_labels

/-- The label-application effect of `github_service.py apply_triage_result` on
an issue's label set (assignee and comment do not touch labels; the external
failure paths of the tracker are not modelled — this is the successful apply
step). -/
def apply_triage_result_labels (issue : List String) (labels : List String)
    (remove_existing_priority : Bool) : List String :=
  if labels.isEmpty then issue
  else
    applyOtherLabels
      (applyPriorityLabels issue (labels.filter isPriorityLabel) remove_existing_priority)
      (labels.filter (fun l => !(isPriorityLabel l)))

/-- The ordered type search terms of `intake_service.py
_map_to_repository_labels`. -/
def type_search_terms (issue_type : String) : List String :=
  let t := strLower issue_type
  if t = "feature" then ["enhancement", "feature", "type:" ++ t]
  else if t = "bug" then ["bug", "type:" ++ t]
  else if t = "documentation" then ["documentation", "docs", "type:" ++ t]
  else if t = "question" then ["question", "help wanted", "type:" ++ t]
  else [t, "type:" ++ t]

/-- The ordered priority search terms of `_map_to_repository_labels`
(literal forms first, then the severity synonyms of the matched tier). -/
def priority_search_terms (priority : String) : List String :=
  [strLower priority,
   "priority:" ++ strLower priority,
   "p" ++ strLower (strDropChars priority 1),
   "prio:" ++ strLower priority]
  ++ (if priority = "P1" then ["critical", "urgent", "high", "severe"]
      else if priority = "P2" then ["high", "important"]
      else if priority = "P3" then ["medium", "normal"]
      else if priority = "P4" then ["low", "minor"]
      else [])

/-- `intake_service.py _find_matching_labels`: for each search term in order,
collect the labels whose lowered name equals the term, falling back to
substring containment when there is no exact match; stop at the first term
with a non-empty match set. -/
def find_matching_labels (repo_label_names : List String) :
    List String → List String
  | [] => []
  | t :: rest =>
    let exact := repo_label_names.filter (fun n => strLower n == t)
    let ms := if exact.isEmpty
              then repo_label_names.filter (fun n => substrOf t (strLower n))
              else exact
    if ms.isEmpty then find_matching_labels repo_label_names rest else ms

/-- `intake_service.py _map_to_repository_labels`: synthetic
`type:`/`priority:` labels when the repository exposes no labels, otherwise
the best (first) type match and the best priority match. -/
def map_to_repository_labels (repo_label_names : List String)
    (issue_type priority : String) : List String :=
  if repo_label_names.isEmpty then
    ["type:" ++ issue_type, "priority:" ++ priority]
  else
    (find_matching_labels repo_label_names (type_search_terms issue_type)).take 1
      ++ (find_matching_labels repo_label_names (priority_search_terms priority)).take 1

/-- A fetched GitHub issue as far as the selection logic needs it. -/
structure GIssue where
  number : Nat
  title : String
  body : Option String
deriving DecidableEq

/-- The tracker collaborator consulted by `triage_issues`: direct fetch by
number (`get_issue`, `None` on failure) and the filtered untriaged listing
(`get_new_untriaged_issues`) as a function of the since-timestamp. -/
structure Tracker where
  getIssue : Nat → Option GIssue
  untriagedSince : Nat → List GIssue

/-- The report dict built by `triage_issues` on an empty candidate set. -/
structure TriageReportEmpty where
  message : String
  processed_count : Nat
  applied_changes : Bool
  total_tool_calls : Nat
  results : List PyVal

/-- Digits-to-Nat accumulator (models `int(...)` on the digit group captured
by the issue-URL regex). -/
def charsToNat : List Char → Nat → Nat
  | [], acc => acc
  | c :: cs, acc => charsToNat cs (acc * 10 + (c.toNat - 48))

/-- Split a char list on the slash character (models the path structure the
issue-URL regex captures). -/
def splitSlashAux : List Char → List Char → List String
  | [], acc => [⟨acc.reverse⟩]
  | c :: cs, acc =>
    if c == '/' then (⟨acc.reverse⟩ : String) :: splitSlashAux cs []
    else splitSlashAux cs (c :: acc)

/-- `intake_service.py _parse_issue_url`: the regex
`https?://github.com/([^/]+)/([^/]+)/issues/(\d+)` modelled for well-formed
URLs — scheme prefix, two non-empty path segments, the literal `issues`
segment and a digit group. -/
def parse_issue_url (u : String) : Option (String × String × Nat) :=
  let rest :=
    if strStartsWith "https://github.com/" u then some (strDropChars u 19)
    else if strStartsWith "http://github.com/" u then some (strDropChars u 18)
    else Option.none
  match rest with
  | Option.none => Option.none
  | some r =>
    match splitSlashAux r.data [] with
    | [o, rp, i, n] =>
      if i == "issues" && !o.data.isEmpty && !rp.data.isEmpty && !n.data.isEmpty
          && n.data.all Char.isDigit then
        some (o, rp, charsToNat n.data 0)
      else Option.none
    | _ => Option.none

/-- The empty-candidate check of `triage_issues` (lines 528-573): when no
untriaged issues were found, the report message interpolates
`since_time.isoformat()` — a `NameError` when the local `since_time` was never
assigned (the explicit issue-number branch); `none` means the run continues
into per-issue processing. -/
def empty_report_or_continue (owner repo : String) (apply_changes : Bool)
    (untriaged : List GIssue) (since_time : Option Nat) :
    Except PyErr (Option TriageReportEmpty) :=
  if untriaged.isEmpty then
    match since_time with
    | Option.none => .error .nameError
    | some t =>
        .ok (some { message := "No untriaged issues found in " ++ owner ++ "/" ++ repo
                        ++ " since " ++ toString t,
                    processed_count := 0,
                    applied_changes := apply_changes,
                    total_tool_calls := 0,
                    results := [] })
  else .ok none

/-- The issue-selection phase of `intake_service.py triage_issues` up to and
including the empty-candidate report (lines 487-573): URL mode re-targets
owner/repo and forces a one-year window, the explicit issue-number mode
fetches each listed issue directly (and never assigns `since_time`), and the
default mode lists untriaged issues since `now - since_hours` (timestamps in
seconds). -/
def triage_issues_selection (tracker : Tracker) (owner repo : String)
    (since_hours : Nat) (apply_changes : Bool)
    (issue_url : Option String) (issue_numbers : Option (List Nat))
    (now : Nat) : Except PyErr (Option TriageReportEmpty) :=
  match (match issue_url with
         | some u =>
           match parse_issue_url u with
           | some (o, r, n) => Except.ok (o, r, some n, 8760)
           | Option.none => Except.error PyErr.valueError
         | Option.none => Except.ok (owner, repo, (Option.none : Option Nat), since_hours)) with
  | .error e => .error e
  | .ok (owner, repo, target_issue_number, since_hours) =>
    match issue_numbers with
    | some nums =>
      if !nums.isEmpty then
        let untriaged := nums.filterMap tracker.getIssue
        empty_report_or_continue owner repo apply_changes untriaged Option.none
      else
        let since_time := now - since_hours * 3600
        let base := tracker.untriagedSince since_time
        let untriaged :=
          match target_issue_number with
          | some n =>
            let f := base.filter (fun i => i.number == n)
            if f.isEmpty then
              match tracker.getIssue n with
              | some i => [i]
              | Option.none => []
            else f
          | Option.none => base
        empty_report_or_continue owner repo apply_changes untriaged (some since_time)
    | Option.none =>
      let since_time := now - since_hours * 3600
      let base := tracker.untriagedSince since_time
      let untriaged :=
        match target_issue_number with
        | some n =>
          let f := base.filter (fun i => i.number == n)
          if f.isEmpty then
            match tracker.getIssue n with
            | some i => [i]
            | Option.none => []
          else f
        | Option.none => base
      empty_report_or_continue owner repo apply_changes untriaged (some since_time)

/-- The `PriorityRules` of Scenario A: `p0_keywords=["crash"]` with the other
tiers left empty and the default priority configured to "P3". -/
def rulesScenarioA : PriorityRules := ⟨["crash"], [], [], [], [], "P3"⟩

/-- The default `PriorityRules` of `models/team_config.py`. -/
def default_rules : PriorityRules :=
  ⟨["crash", "outage", "security", "data loss"],
   ["bug", "broken", "error"],
   ["enhancement", "feature"],
   ["minor", "low"],
   ["trivial", "nice-to-have"],
   "P3"⟩

/-- A roster whose second member is the only one with a lead role. -/
def cxTeam : List TeamMember :=
  [⟨"Alice", "alice", "Manager"⟩, ⟨"Bob", "bob", "Tech Lead"⟩]

/-- A tracker on which every fetch fails and no untriaged issues exist. -/
def trackerNone : Tracker := ⟨fun _ => Option.none, fun _ => []⟩

/-- A classification whose assignee selection produced no assignee. -/
def emptyAssigneeClassification : IssueClassification :=
  { issue_url := "https://github.com/octo/demo/issues/5",
    issue_number := 5,
    issue_type := "bug",
    priority := "P3",
    suggested_labels := ["bug"],
    suggested_assignee := Option.none,
    is_copilot_fixable := false,
    reason := "triage summary",
    confidence := 1/2,
    rationale := ⟨"t", "p", "c", "", "l"⟩,
    fix_suggestions := [] }

/-- A classification proposing one repository label and one non-existent
label, with a leading `@` on the assignee. -/
def cValidatorInput : IssueClassification :=
  { issue_url := "https://github.com/octo/demo/issues/9",
    issue_number := 9,
    issue_type := "bug",
    priority := "P1",
    suggested_labels := ["bug", "ghost"],
    suggested_assignee := some "@alice",
    is_copilot_fixable := false,
    reason := "triage summary",
    confidence := 9/10,
    rationale := ⟨"", "", "", "", ""⟩,
    fix_suggestions := [] }

/-- C1.  The claim's Scenario A fails on the code: with
`p0_keywords=["crash"]` the keyword fallback classifies the issue
"Bug: crashes on startup" as type "bug" but priority "P3", not "P0" —
`_determine_priority` never consults the p0 tier (and returns the literal
"P3" rather than the configured default when no tier matches). -/
theorem c1_counterexample :
    classify_issue "Bug: crashes on startup" "The app crash happens immediately"
        rulesScenarioA .unavailable
      = .ok (.dict [("type", .str "bug"),
                    ("priority", .str "P3"),
                    ("type_rationale", .str "Classified as \x27bug\x27 based on keyword matching"),
                    ("priority_rationale", .str "Assigned P3 based on keyword matching"),
                    ("confidence", .float (1/2))])
    ∧ ("P3" : String) ≠ "P0" :=
  ⟨rfl, by decide⟩

/-- C1 (amended).  The keyword fallback scans tiers P1→P4 only: the p0
keyword list and the configured default priority never influence the result,
each tier fires exactly when it is the first tier with a keyword hit, and the
no-hit default is the literal "P3"; on Scenario A's text the fallback yields
type "bug" and priority "P3". -/
theorem c1_amended :
    (∀ (c : String) (r : PriorityRules) (k : List String),
        determinePriority c { r with p0_keywords := k } = determinePriority c r)
  ∧ (∀ (c : String) (r : PriorityRules) (d : String),
        determinePriority c { r with default_priority := d } = determinePriority c r)
  ∧ (∀ (c : String) (r : PriorityRules),
        kwHit r.p1_keywords c = true → determinePriority c r = "P1")
  ∧ (∀ (c : String) (r : PriorityRules),
        kwHit r.p1_keywords c = false → kwHit r.p2_keywords c = true →
        determinePriority c r = "P2")
  ∧ (∀ (c : String) (r : PriorityRules),
        kwHit r.p1_keywords c = false → kwHit r.p2_keywords c = false →
        kwHit r.p3_keywords c = true → determinePriority c r = "P3")
  ∧ (∀ (c : String) (r : PriorityRules),
        kwHit r.p1_keywords c = false → kwHit r.p2_keywords c = false →
        kwHit r.p3_keywords c = false → kwHit r.p4_keywords c = true →
        determinePriority c r = "P4")
  ∧ (∀ (c : String) (r : PriorityRules),
        kwHit r.p1_keywords c = false → kwHit r.p2_keywords c = false →
        kwHit r.p3_keywords c = false → kwHit r.p4_keywords c = false →
        determinePriority c r = "P3")
  ∧ classify_issue "Bug: crashes on startup" "The app crash happens immediately"
        rulesScenarioA .unavailable
      = .ok (.dict [("type", .str "bug"),
                    ("priority", .str "P3"),
                    ("type_rationale", .str "Classified as \x27bug\x27 based on keyword matching"),
                    ("priority_rationale", .str "Assigned P3 based on keyword matching"),
                    ("confidence", .float (1/2))]) := by
  refine ⟨fun c r k => rfl, fun c r d => rfl, ?_, ?_, ?_, ?_, ?_, rfl⟩
  · intro c r h1; simp [determinePriority, h1]
  · intro c r h1 h2; simp [determinePriority, h1, h2]
  · intro c r h1 h2 h3; simp [determinePriority, h1, h2, h3]
  · intro c r h1 h2 h3 h4; simp [determinePriority, h1, h2, h3, h4]
  · intro c r h1 h2 h3 h4; simp [determinePriority, h1, h2, h3, h4]

/-- C1 witness: the amended tier rules evaluated at a concrete input. -/
theorem c1_amended_witness :
    kwHit (["bug"] : List String) "a bug here" = true
    ∧ determinePriority "a bug here" ⟨[], ["bug"], [], [], [], "P2"⟩ = "P1" :=
  ⟨by decide, c1_amended.2.2.1 "a bug here" ⟨[], ["bug"], [], [], [], "P2"⟩ (by decide)⟩

/-- C3.  In explicit issue-number mode an empty candidate set makes
`triage_issues` raise (`NameError`/`UnboundLocalError`: the empty-candidate
report message interpolates `since_time`, which that branch never assigns),
while in default time-window mode and in single-issue-URL mode the same empty
candidate set produces the well-formed zero-result report with
`processed_count = 0` and empty results. -/
theorem c3_code_bug :
    triage_issues_selection trackerNone "octo" "demo" 24 false Option.none (some [42]) 40000000
      = .error .nameError
  ∧ triage_issues_selection trackerNone "octo" "demo" 24 false Option.none Option.none 40000000
      = .ok (some { message := "No untriaged issues found in octo/demo since 39913600",
                    processed_count := 0, applied_changes := false,
                    total_tool_calls := 0, results := [] })
  ∧ triage_issues_selection trackerNone "o" "r" 24 false
        (some "https://github.com/octo/demo/issues/7") Option.none 40000000
      = .ok (some { message := "No untriaged issues found in octo/demo since 8464000",
                    processed_count := 0, applied_changes := false,
                    total_tool_calls := 0, results := [] }) :=
  ⟨rfl, rfl, rfl⟩

/-- C5.  The Classifier and Assessor absorb LLM unavailability and non-JSON
text into the fallback, but an LLM response that is valid JSON without being
an object (here the array `[]`) raises `AttributeError` out of both
functions: only `json.JSONDecodeError` is caught around `parsed.get`. -/
theorem c5_never_raises_violated :
    classify_issue "Bug report" "details" default_rules (.json (.list []))
      = .error .attributeError
  ∧ is_copilot_fixable "Fix typo" "small" ⟨true, ["typo"], 5⟩ "bug" "P3" (.json (.list []))
      = .error .attributeError
  ∧ (∀ (t b : String) (r : PriorityRules),
        isOkE (classify_issue t b r .unavailable) = true
        ∧ isOkE (classify_issue t b r .malformed) = true)
  ∧ (∀ (t b it p : String) (cfg : CopilotFixableConfig),
        isOkE (is_copilot_fixable t b cfg it p .unavailable) = true
        ∧ isOkE (is_copilot_fixable t b cfg it p .malformed) = true) := by
  refine ⟨rfl, rfl, fun t b r => ⟨rfl, rfl⟩, fun t b it p cfg => ⟨?_, ?_⟩⟩
  · unfold is_copilot_fixable
    cases cfg.enabled <;> simp [isOkE] <;>
      cases cfg.criteria.find? (fun c => substrOf (strLower c) (strLower (t ++ " " ++ b))) <;>
      simp [isOkE]
  · unfold is_copilot_fixable
    cases cfg.enabled <;> simp [isOkE] <;>
      cases cfg.criteria.find? (fun c => substrOf (strLower c) (strLower (t ++ " " ++ b))) <;>
      simp [isOkE]

/-- C6.  With the Copilot feature flag disabled the Assessor returns the fixed
disabled result — independent of title, body, issue type, priority and of the
LLM outcome (no AI interaction can influence it). -/
theorem c6_disabled_assessor (title body : String) (config : CopilotFixableConfig)
    (issue_type priority : String) (llm : LlmOutcome)
    (h : config.enabled = false) :
    is_copilot_fixable title body config issue_type priority llm
      = .ok disabled_copilot_result := by
  simp [is_copilot_fixable, h]

/-- C6 witness: the disabled Assessor evaluated at a concrete input. -/
theorem c6_witness :
    ({ enabled := false, criteria := ["typo"], max_issues_per_day := 5 } :
        CopilotFixableConfig).enabled = false
    ∧ is_copilot_fixable "Crash on login" "stack trace attached"
        { enabled := false, criteria := ["typo"], max_issues_per_day := 5 }
        "bug" "P1" .unavailable = .ok disabled_copilot_result :=
  ⟨rfl, c6_disabled_assessor "Crash on login" "stack trace attached" _ "bug" "P1" .unavailable rfl⟩

/-- C8.  The fallback lead rule fires only for priorities P1/P2, not
{P0, P1}: with priority "P0", an issue type whose role keywords match nobody
and a roster whose second member has role "Tech Lead", the fallback assigns
the first member ("alice"), not the lead ("bob"). -/
theorem c8_counterexample :
    substrOf "lead" (strLower "Tech Lead") = true
  ∧ fallback_assignee_selection "bug" "P0" cxTeam
      = .ok ⟨some "alice", "Default assignment - no specific expertise match found", 3/10⟩
  ∧ ("alice" : String) ≠ "bob" :=
  ⟨by decide, rfl, by decide⟩

/-- C8 (amended).  In the deterministic fallback, if the issue priority is in
{P1, P2} (not {P0, P1}) and some team member's role contains "lead", the
first such member is selected with the tech-lead rationale. -/
theorem c8_amended (issue_type priority : String) (team : List TeamMember)
    (m : TeamMember) (hp : priority = "P1" ∨ priority = "P2")
    (hm : team.find? (fun x => substrOf "lead" (strLower x.role)) = some m) :
    fallback_assignee_selection issue_type priority team
      = .ok ⟨some m.login, "High priority (" ++ priority ++ ") issue assigned to tech lead", 3/5⟩ := by
  rcases hp with h | h <;> subst h <;> simp [fallback_assignee_selection, hm]

/-- C8 witness: the amended lead rule evaluated at a concrete roster. -/
theorem c8_amended_witness :
    (("P1" : String) = "P1" ∨ ("P1" : String) = "P2")
  ∧ cxTeam.find? (fun x => substrOf "lead" (strLower x.role))
      = some ⟨"Bob", "bob", "Tech Lead"⟩
  ∧ fallback_assignee_selection "bug" "P1" cxTeam
      = .ok ⟨some "bob", "High priority (P1) issue assigned to tech lead", 3/5⟩ :=
  ⟨Or.inl rfl, by rfl,
   c8_amended "bug" "P1" cxTeam ⟨"Bob", "bob", "Tech Lead"⟩ (Or.inl rfl) (by rfl)⟩
theorem strip_at_labels (c : IssueClassification) :
    (strip_at c).suggested_labels = c.suggested_labels := by
  unfold strip_at
  split
  · split <;> rfl
  · rfl

theorem add_to_labels_filter_none (p : String → Bool) :
    ∀ (new issue : List String), (∀ l ∈ new, p l = false) →
      (add_to_labels issue new).filter p = issue.filter p := by
  intro new
  induction new with
  | nil => intro issue h; rfl
  | cons a as ih =>
    intro issue h
    have ha : p a = false := h a (List.mem_cons_self a as)
    have has : ∀ l ∈ as, p l = false := fun l hl => h l (List.mem_cons_of_mem _ hl)
    show (add_to_labels (if issue.contains a then issue else issue ++ [a]) as).filter p
        = issue.filter p
    rw [ih _ has]
    split
    · rfl
    · simp [List.filter_append, List.filter_cons, ha]

theorem set_priority_label_filter (issue : List String) (p : String)
    (hp : isPriorityLabel p = true) :
    (set_priority_label issue p).filter isPriorityLabel = [p] := by
  have hbase : ∀ l ∈ issue.filter (fun l => !(isPriorityLabel l)),
      isPriorityLabel l = false := by
    intro l hl
    have := (List.mem_filter.mp hl).2
    simpa using this
  have hfil : (issue.filter (fun l => !(isPriorityLabel l))).filter isPriorityLabel = [] := by
    rw [List.filter_eq_nil_iff]
    intro a ha
    simp [hbase a ha]
  have hcont : (issue.filter (fun l => !(isPriorityLabel l))).contains p = false := by
    cases hc : (issue.filter (fun l => !(isPriorityLabel l))).contains p
    · rfl
    · exfalso
      simp [List.contains] at hc
      simp [hp] at hc
  show ((if (issue.filter (fun l => !(isPriorityLabel l))).contains p
          then issue.filter (fun l => !(isPriorityLabel l))
          else issue.filter (fun l => !(isPriorityLabel l)) ++ [p]).filter isPriorityLabel) = [p]
  rw [hcont]
  simp [List.filter_append, List.filter_cons, hp, hfil]

theorem foldl_set_priority_filter (ps : List String) :
    (∀ p ∈ ps, isPriorityLabel p = true) → ps ≠ [] →
    ∀ issue : List String,
      ((ps.foldl set_priority_label issue).filter isPriorityLabel).length = 1 := by
  induction ps with
  | nil => intro _ h; exact absurd rfl h
  | cons p ps ih =>
    intro hall _ issue
    cases ps with
    | nil =>
      simp only [List.foldl_cons, List.foldl_nil]
      rw [set_priority_label_filter issue p (hall p (List.mem_cons_self p []))]
      rfl
    | cons q qs =>
      simp only [List.foldl_cons]
      exact ih (fun x hx => hall x (List.mem_cons_of_mem _ hx)) (by simp)
        (set_priority_label issue p)

/-- C4.  The apply step does not unconditionally enforce priority-label
exclusivity: when the applied label list contains no priority-pattern label,
pre-existing priority labels survive — an issue already carrying "P1" and
"P2" that receives only "bug" ends up with two priority-pattern labels. -/
theorem c4_counterexample :
    (apply_triage_result_labels ["P1", "P2"] ["bug"] true).filter isPriorityLabel
      = ["P1", "P2"]
  ∧ ¬(((apply_triage_result_labels ["P1", "P2"] ["bug"] true).filter isPriorityLabel).length ≤ 1) :=
  ⟨rfl, by decide⟩

/-- C4 (amended).  Applying a priority-pattern label replaces rather than
appends: `set_priority_label` first removes every label matching the pattern
set {p0,p1,p2,p3,p4,priority} and then adds the new one, and any apply step
whose label list contains at least one priority-pattern label (with the
default remove-existing behavior) leaves the issue with exactly one
priority-pattern label.  When no priority-pattern label is applied,
pre-existing priority labels are untouched. -/
theorem c4_amended :
    (∀ (issue : List String) (p : String), isPriorityLabel p = true →
        (set_priority_label issue p).filter isPriorityLabel = [p])
  ∧ (∀ (issue labels : List String), labels.any isPriorityLabel = true →
        ((apply_triage_result_labels issue labels true).filter isPriorityLabel).length = 1) := by
  constructor
  · exact fun issue p hp => set_priority_label_filter issue p hp
  · intro issue labels h
    obtain ⟨x, hxmem, hx⟩ := List.any_eq_true.mp h
    have hlabne : labels.isEmpty = false := by
      cases labels
      · cases hxmem
      · rfl
    have hprio_mem : x ∈ labels.filter isPriorityLabel := List.mem_filter.mpr ⟨hxmem, hx⟩
    have hprio_ne : (labels.filter isPriorityLabel).isEmpty = false := by
      cases hpe : labels.filter isPriorityLabel with
      | nil => rw [hpe] at hprio_mem; cases hprio_mem
      | cons _ _ => rfl
    have hfold : ((( labels.filter isPriorityLabel).foldl set_priority_label issue).filter isPriorityLabel).length = 1 :=
      foldl_set_priority_filter (labels.filter isPriorityLabel)
        (fun p hp => (List.mem_filter.mp hp).2)
        (by simpa using List.isEmpty_eq_false.mp hprio_ne) issue
    have hother : ∀ l ∈ labels.filter (fun l => !(isPriorityLabel l)),
        isPriorityLabel l = false := by
      intro l hl
      have := (List.mem_filter.mp hl).2
      simpa using this
    unfold apply_triage_result_labels
    rw [hlabne]
    simp only [Bool.false_eq_true, if_false]
    unfold applyPriorityLabels
    rw [hprio_ne]
    simp only [Bool.not_false, Bool.true_and, if_true]
    unfold applyOtherLabels
    cases hoe : (labels.filter (fun l => !(isPriorityLabel l))).isEmpty
    · simp only [Bool.false_eq_true, if_false]
      rw [add_to_labels_filter_none isPriorityLabel _ _ hother]
      exact hfold
    · simp only [if_true]
      exact hfold

/-- C4 witness: an apply step carrying the priority label "P3" onto an issue
already labelled "P1", "P2" and "bug" ends with exactly one priority label. -/
theorem c4_amended_witness :
    (["P3"] : List String).any isPriorityLabel = true
  ∧ ((apply_triage_result_labels ["P1", "P2", "bug"] ["P3"] true).filter isPriorityLabel).length = 1 :=
  ⟨by decide, c4_amended.2 ["P1", "P2", "bug"] ["P3"] (by decide)⟩

theorem find_matching_labels_mem (names : List String) :
    ∀ (terms : List String) (l : String), l ∈ find_matching_labels names terms → l ∈ names := by
  intro terms
  induction terms with
  | nil => intro l h; cases h
  | cons t rest ih =>
    intro l h
    simp only [find_matching_labels] at h
    split at h
    · split at h
      · exact ih l h
      · exact (List.mem_filter.mp h).1
    · exact (List.mem_filter.mp h).1

theorem find_matching_labels_exact (names : List String) (t : String) (rest : List String)
    (h : names.any (fun n => strLower n == t) = true) :
    find_matching_labels names (t :: rest) = names.filter (fun n => strLower n == t) := by
  have hne : (names.filter (fun n => strLower n == t)).isEmpty = false := by
    obtain ⟨x, hx, hpx⟩ := List.any_eq_true.mp h
    have hmem : x ∈ names.filter (fun n => strLower n == t) := List.mem_filter.mpr ⟨hx, hpx⟩
    cases he : names.filter (fun n => strLower n == t) with
    | nil => rw [he] at hmem; cases hmem
    | cons _ _ => rfl
  simp only [find_matching_labels, hne]
  simp [hne]

theorem map_to_repository_labels_mem (names : List String) (it p : String) :
    ∀ l ∈ map_to_repository_labels names it p, names = [] ∨ l ∈ names := by
  intro l hl
  cases hn : names with
  | nil => exact Or.inl rfl
  | cons a as =>
    refine Or.inr ?_
    rw [hn] at hl
    simp only [map_to_repository_labels, List.isEmpty_cons, Bool.false_eq_true, if_false] at hl
    rw [← hn] at hl
    rw [← hn]
    rcases List.mem_append.mp hl with h | h
    · exact find_matching_labels_mem names _ l (List.take_subset 1 _ h)
    · exact find_matching_labels_mem names _ l (List.take_subset 1 _ h)

/-- C7.  The Mapper: with an empty repository label set it returns exactly the
synthetic `type:`/`priority:` pair; with a non-empty set it returns the first
type match followed by the first priority match (hence at most one of each,
at most two in total), every returned label exists in the repository, and for
each search term an exact case-insensitive match set takes priority over
substring containment. -/
theorem c7_mapper :
    (∀ (it p : String), map_to_repository_labels [] it p
        = ["type:" ++ it, "priority:" ++ p])
  ∧ (∀ (names : List String) (it p : String) (l : String),
        l ∈ map_to_repository_labels names it p → names = [] ∨ l ∈ names)
  ∧ (∀ (names : List String) (it p : String),
        (map_to_repository_labels names it p).length ≤ 2)
  ∧ (∀ (names : List String) (it p : String), names ≠ [] →
        map_to_repository_labels names it p
          = (find_matching_labels names (type_search_terms it)).take 1
            ++ (find_matching_labels names (priority_search_terms p)).take 1)
  ∧ (∀ (names : List String) (t : String) (rest : List String),
        names.any (fun n => strLower n == t) = true →
        find_matching_labels names (t :: rest) = names.filter (fun n => strLower n == t)) := by
  refine ⟨fun it p => rfl, ?_, ?_, ?_, ?_⟩
  · exact fun names it p l => map_to_repository_labels_mem names it p l
  · intro names it p
    cases names with
    | nil => simp [map_to_repository_labels]
    | cons a as =>
      simp only [map_to_repository_labels, List.isEmpty_cons, Bool.false_eq_true, if_false]
      have h1 := List.length_take_le 1 (find_matching_labels (a :: as) (type_search_terms it))
      have h2 := List.length_take_le 1 (find_matching_labels (a :: as) (priority_search_terms p))
      rw [List.length_append]
      omega
  · intro names it p hne
    cases names with
    | nil => exact absurd rfl hne
    | cons a as => simp [map_to_repository_labels]
  · exact fun names t rest h => find_matching_labels_exact names t rest h

/-- C7 witness: exact preference on a concrete label set — the label "Bug"
matches the term "bug" exactly (case-insensitively) and is preferred over any
substring match. -/
theorem c7_witness :
    (["Bug", "enhancement"] : List String).any (fun n => strLower n == "bug") = true
  ∧ find_matching_labels ["Bug", "enhancement"] ("bug" :: ["type:bug"])
      = (["Bug", "enhancement"] : List String).filter (fun n => strLower n == "bug") :=
  ⟨by decide, c7_mapper.2.2.2.2 ["Bug", "enhancement"] "bug" ["type:bug"] (by decide)⟩

/-- C10.  For a non-empty repository label set, every label the Mapper
returns is verbatim the name of a repository label, so the Validator's exact
membership check (`validate_labels`) classifies every mapper-produced label as
valid — its invalid list is empty. -/
theorem c10_mapper_valid (names : List String) (it p : String) (h : names ≠ []) :
    (validate_labels names (map_to_repository_labels names it p)).invalid = []
  ∧ ∀ l ∈ map_to_repository_labels names it p, names.contains l = true := by
  have hmem : ∀ l ∈ map_to_repository_labels names it p, l ∈ names := by
    intro l hl
    rcases map_to_repository_labels_mem names it p l hl with hnil | hm
    · exact absurd hnil h
    · exact hm
  have hcont : ∀ l ∈ map_to_repository_labels names it p, names.contains l = true := by
    intro l hl
    simp [List.contains, hmem l hl]
  refine ⟨?_, hcont⟩
  show (map_to_repository_labels names it p).filter (fun l => !(names.contains l)) = []
  rw [List.filter_eq_nil_iff]
  intro a ha
  rw [hcont a ha]
  decide

/-- C10 witness: the Mapper/Validator agreement evaluated on a one-label
repository. -/
theorem c10_witness :
    (["bug"] : List String) ≠ []
  ∧ (validate_labels ["bug"] (map_to_repository_labels ["bug"] "bug" "P1")).invalid = [] :=
  ⟨by decide, (c10_mapper_valid ["bug"] "bug" "P1" (by decide)).1⟩

/-- C2.  The Classification Validator never leaves a non-repository label in
`suggested_labels`: after validation every remaining suggested label exists
verbatim in the repository set (so `valid = true` can never coexist with an
absent label), and any proposed label absent from the repository forces
`valid = false`, is dropped from the classification, and leaves a non-empty
warning list. -/
theorem c2_validator (repo : List String) (c : IssueClassification) :
    (∀ l ∈ (validate_classification repo c).1.suggested_labels, repo.contains l = true)
  ∧ (∀ l ∈ c.suggested_labels, repo.contains l = false →
        (validate_classification repo c).2.valid = false
        ∧ l ∉ (validate_classification repo c).1.suggested_labels
        ∧ (validate_classification repo c).2.warnings ≠ []) := by
  constructor
  · intro l hl
    have hl' : l ∈ (validate_step_labels repo c).suggested_labels := by
      rw [← strip_at_labels (validate_step_labels repo c)]
      exact hl
    revert hl'
    unfold validate_step_labels validate_labels
    split
    · intro hl'
      next hinv =>
        have hnil : c.suggested_labels.filter (fun l => !(repo.contains l)) = [] :=
          List.isEmpty_iff.mp hinv
        have := List.filter_eq_nil_iff.mp hnil l hl'
        cases hc : repo.contains l
        · exfalso
          apply this
          rw [hc]
          decide
        · rfl
    · intro hl'
      exact (List.mem_filter.mp hl').2
  · intro l hl hc
    have hinv_mem : l ∈ c.suggested_labels.filter (fun l => !(repo.contains l)) :=
      List.mem_filter.mpr ⟨hl, by rw [hc]; decide⟩
    have hinv_ne : (c.suggested_labels.filter (fun l => !(repo.contains l))).isEmpty = false := by
      cases he : c.suggested_labels.filter (fun l => !(repo.contains l)) with
      | nil => rw [he] at hinv_mem; cases hinv_mem
      | cons _ _ => rfl
    refine ⟨?_, ?_, ?_⟩
    · show validate_valid repo c = false
      unfold validate_valid validate_labels
      split
      · rfl
      · exact hinv_ne
    · intro hmem
      have hmem' : l ∈ (validate_step_labels repo c).suggested_labels := by
        rw [← strip_at_labels (validate_step_labels repo c)]
        exact hmem
      revert hmem'
      unfold validate_step_labels validate_labels
      split
      · next hinv => rw [hinv] at hinv_ne; cases hinv_ne
      · intro hmem'
        have := (List.mem_filter.mp hmem').2
        rw [hc] at this
        cases this
    · show validate_warnings repo c ≠ []
      unfold validate_warnings validate_labels
      rw [hinv_ne]
      simp

/-- C2 witness: a proposed label set containing the non-existent label
"ghost" is invalidated, the label is dropped, and a warning is recorded. -/
theorem c2_witness :
    ("ghost" ∈ cValidatorInput.suggested_labels
      ∧ (["bug"] : List String).contains "ghost" = false)
  ∧ (validate_classification ["bug"] cValidatorInput).2.valid = false
  ∧ "ghost" ∉ (validate_classification ["bug"] cValidatorInput).1.suggested_labels
  ∧ (validate_classification ["bug"] cValidatorInput).2.warnings ≠ [] := by
  have h := (c2_validator ["bug"] cValidatorInput).2 "ghost" (by decide) (by decide)
  exact ⟨⟨by decide, by decide⟩, h.1, h.2.1, h.2.2⟩

/-- C9.  The assignee selection returns a null assignee exactly on an empty
roster, with the fixed rationale "No team members configured"; with a
non-empty roster every successful return carries a (possibly empty-string)
login, never `None`; and when the classification carries no assignee the
Mutation Planner emits no assignment tool call. -/
theorem c9_null_assignee :
    (∀ (title body it p : String) (llm : LlmOutcome),
        select_human_assignee [] title body it p llm
          = .ok (Option.none, "No team members configured"))
  ∧ (∀ (team : List TeamMember) (title body it p : String) (llm : LlmOutcome) (r : String),
        select_human_assignee team title body it p llm = .ok (Option.none, r) →
        team = [] ∧ r = "No team members configured")
  ∧ (∀ (owner repo : String) (c : IssueClassification),
        c.suggested_assignee = Option.none →
        (generate_tool_calls owner repo c).all (fun tc => !tc.isAssign) = true) := by
  refine ⟨fun _ _ _ _ _ => rfl, ?_, ?_⟩
  · intro team title body it p llm r h
    cases team with
    | nil =>
      refine ⟨rfl, ?_⟩
      have h' : (Except.ok (Option.none, "No team members configured") :
          Except PyErr (Option String × String)) = .ok (Option.none, r) := h
      exact ((Prod.mk.injEq _ _ _ _).mp (Except.ok.injEq _ _ |>.mp h')).2.symm
    | cons m ms =>
      exfalso
      unfold select_human_assignee at h
      simp only [List.isEmpty_cons, Bool.false_eq_true, if_false] at h
      cases hsel : select_assignee title body it p (m :: ms) llm with
      | error e =>
        rw [hsel] at h
        cases h
      | ok result =>
        rw [hsel] at h
        simp only at h
        by_cases htr : optStrTruthy result.assignee = true
        · rw [if_pos htr] at h
          have ha : result.assignee = Option.none :=
            ((Prod.mk.injEq _ _ _ _).mp (Except.ok.injEq _ _ |>.mp h)).1
          rw [ha] at htr
          cases htr
        · rw [if_neg htr] at h
          simp only [List.head?_cons, Option.map_some, Option.map_some'] at h
          by_cases hcond : ((p == "P0" || p == "P1") && optStrTruthy (some m.login)) = true
          · rw [if_pos hcond] at h
            have ha : (some m.login : Option String) = Option.none :=
              ((Prod.mk.injEq _ _ _ _).mp (Except.ok.injEq _ _ |>.mp h)).1
            cases ha
          · rw [if_neg hcond] at h
            have ha : (some m.login : Option String) = Option.none :=
              ((Prod.mk.injEq _ _ _ _).mp (Except.ok.injEq _ _ |>.mp h)).1
            cases ha
  · intro owner repo c hna
    unfold generate_tool_calls
    rw [hna]
    simp only [List.all_append, List.all_cons, List.all_nil, Bool.and_true]
    rw [Bool.and_eq_true]
    constructor
    · split <;> split <;> simp [ToolCall.isAssign]
    · simp [ToolCall.isAssign]

/-- C9 witness: the empty-roster selection and the planner's output for a
classification without an assignee, evaluated concretely. -/
theorem c9_witness :
    select_human_assignee [] "Crash" "details" "bug" "P1" .unavailable
      = .ok (Option.none, "No team members configured")
  ∧ (([] : List TeamMember) = [] ∧ "No team members configured" = "No team members configured")
  ∧ emptyAssigneeClassification.suggested_assignee = Option.none
  ∧ (generate_tool_calls "octo" "demo" emptyAssigneeClassification).all
      (fun tc => !tc.isAssign) = true :=
  ⟨c9_null_assignee.1 "Crash" "details" "bug" "P1" .unavailable,
   c9_null_assignee.2.1 [] "Crash" "details" "bug" "P1" .unavailable
     "No team members configured" (by rfl),
   rfl,
   c9_null_assignee.2.2 "octo" "demo" emptyAssigneeClassification rfl⟩
